import Mathlib

/-!
Shallow embedding of the pet-health-diary chat bot (src/app/bot.py,
src/app/validators.py, src/app/models.py) for verification of the
specification's claims about the conversation wizards, the callback
handlers and the reminder scheduler.

Modelling conventions:
* Machine time is measured in whole days (a `Nat` day number in the
  proleptic Gregorian calendar, counted from 0000-03-01).  All datetimes
  the claims touch are date-valued (`datetime(y, m, d)` midnights), so a
  day-number faithfully represents them; `timedelta(days = n)` is `+ n`.
* The persistent store is a record of lists, one per table, plus the
  autoincrement counters.  SQLAlchemy `select ... where` becomes
  `List.find?` / `List.filter` with the same predicate, including the
  ownership joins.
* An aiogram handler becomes a pure function from its inputs (message
  text or callback payload, the sender's telegram id, the per-user FSM
  state, the store, and the current time where the code reads the clock)
  to the updated state/store plus the list of outbound transport actions.
  Keyboards / reply markup are presentation (out of scope in the spec)
  and are dropped; message texts are kept verbatim.
* Python truthiness tests (`if not user.active_pet_id`, `if not name`)
  are modelled by explicit truthiness functions on `Option`.
-/

namespace PetBot

/-! ## Python string primitives -/

/-- Characters `str.strip()` removes (ASCII whitespace suffices here). -/
def pyIsSpace (c : Char) : Bool :=
  c = ' ' || c = '\t' || c = '\n' || c = '\r' || c = '\x0b' || c = '\x0c'

/-- `str.strip()`: drop whitespace from both ends. -/
def pyStripList (l : List Char) : List Char :=
  ((l.dropWhile pyIsSpace).reverse.dropWhile pyIsSpace).reverse

def pyStrip (s : String) : String :=
  String.mk (pyStripList s.toList)

/-- `str.split(sep)` for a one-character separator, on char lists. -/
def splitOnCharList (c : Char) : List Char → List (List Char)
  | [] => [[]]
  | x :: xs =>
    let r := splitOnCharList c xs
    if x = c then [] :: r
    else
      match r with
      | [] => [[x]]
      | y :: ys => (x :: y) :: ys

/-- `payload.split(":")`. -/
def splitColon (s : String) : List String :=
  (splitOnCharList ':' s.toList).map String.mk

/-- `payload.partition(":")[2]`: everything after the first colon,
    `""` when there is no colon (as in Python). -/
def partitionColonTailList : List Char → List Char
  | [] => []
  | x :: xs => if x = ':' then xs else partitionColonTailList xs

def partitionColonTail (s : String) : String :=
  String.mk (partitionColonTailList s.toList)

/-- Digit-run to `Nat`; `none` on empty or non-digit input. -/
def parseDigits : List Char → Option Nat
  | [] => none
  | l => go l 0
where
  go : List Char → Nat → Option Nat
    | [], acc => some acc
    | c :: cs, acc =>
      if c.isDigit then go cs (acc * 10 + (c.toNat - 48)) else none

/-- Python `int(text)`: strip whitespace, optional sign, decimal digits.
    (Underscore separators are not modelled; no claim exercises them.) -/
def parsePyInt (s : String) : Option Int :=
  match pyStripList s.toList with
  | '-' :: rest => (parseDigits rest).map (fun n => -(n : Int))
  | '+' :: rest => (parseDigits rest).map (fun n => (n : Int))
  | l => (parseDigits l).map (fun n => (n : Int))

/-- Fuel-based decimal rendering of a `Nat` (kernel-reducible). -/
def natToCharsAux : Nat → Nat → List Char
  | 0, _ => []
  | fuel + 1, n =>
    if n < 10 then [Char.ofNat (48 + n)]
    else natToCharsAux fuel (n / 10) ++ [Char.ofNat (48 + n % 10)]

def natToStr (n : Nat) : String :=
  String.mk (natToCharsAux (n + 1) n)

def pad2 (n : Nat) : String :=
  if n < 10 then "0" ++ natToStr n else natToStr n

def pad4 (n : Nat) : String :=
  (if n < 10 then "000" else if n < 100 then "00" else if n < 1000 then "0" else "")
    ++ natToStr n

/-! ## Calendar arithmetic

Day numbers count days since 0000-03-01 of the proleptic Gregorian
calendar (Hinnant's civil-calendar algorithm, restated over `Nat`,
valid for every year ≥ 1 — all the code ever constructs). -/

def isLeapYear (y : Nat) : Bool :=
  (y % 4 = 0 && y % 100 ≠ 0) || y % 400 = 0

def daysInMonth (y m : Nat) : Nat :=
  if m = 2 then (if isLeapYear y then 29 else 28)
  else if m = 4 || m = 6 || m = 9 || m = 11 then 30
  else 31

/-- `datetime(y, m, d)` as a day number. -/
def daysFromCivil (y m d : Nat) : Nat :=
  let y' := y - (if m ≤ 2 then 1 else 0)
  let era := y' / 400
  let yoe := y' % 400
  let mp := if m > 2 then m - 3 else m + 9
  let doy := (153 * mp + 2) / 5 + d - 1
  let doe := yoe * 365 + yoe / 4 - yoe / 100 + doy
  era * 146097 + doe

/-- Day number back to `(year, month, day)`. -/
def civilFromDays (z : Nat) : Nat × Nat × Nat :=
  let era := z / 146097
  let doe := z % 146097
  let yoe := (doe - doe / 1460 + doe / 36524 - doe / 146096) / 365
  let y' := yoe + era * 400
  let doy := doe - (365 * yoe + yoe / 4 - yoe / 100)
  let mp := (5 * doy + 2) / 153
  let d := doy - (153 * mp + 2) / 5 + 1
  let m := if mp < 10 then mp + 3 else mp - 9
  (y' + (if m ≤ 2 then 1 else 0), m, d)

def dateYear (z : Nat) : Nat := (civilFromDays z).1

/-- `dt.strftime("%Y-%m-%d")`. -/
def dateToStr (z : Nat) : String :=
  let (y, m, d) := civilFromDays z
  pad4 y ++ "-" ++ pad2 m ++ "-" ++ pad2 d

/-- `datetime(y, m, d).isoformat()` = `"YYYY-MM-DDT00:00:00"`. -/
def isoformat (z : Nat) : String :=
  dateToStr z ++ "T00:00:00"

/-- `datetime.strptime(text, "%Y-%m-%d")`: three dash-separated digit
    runs (≤4 / ≤2 / ≤2 digits), a valid calendar date, year ≥ 1;
    `none` models the `ValueError`. -/
def strptimeYmd (s : String) : Option Nat :=
  match (splitOnCharList '-' s.toList).map parseDigits with
  | [some y, some m, some d] =>
    match splitOnCharList '-' s.toList with
    | [ys, ms, ds] =>
      if ys.length ≤ 4 && ms.length ≤ 2 && ds.length ≤ 2 &&
         1 ≤ y && 1 ≤ m && m ≤ 12 && 1 ≤ d && d ≤ daysInMonth y m then
        some (daysFromCivil y m d)
      else none
    | _ => none
  | _ => none

/-- `datetime.fromisoformat(raw)` restricted to the midnight strings the
    wizard itself stores (`isoformat` above); anything else is the
    `ValueError` branch. -/
def fromIsoformat (s : String) : Option Nat :=
  match strptimeYmd (String.mk (s.toList.take 10)) with
  | none => none
  | some z =>
    let rest := s.toList.drop 10
    if rest = [] || rest = "T00:00:00".toList then some z else none

/-! ## Data model (src/app/models.py) -/

structure UserR where
  id : Nat
  telegram_id : Nat
  active_pet_id : Option Nat
deriving DecidableEq, Repr

structure PetR where
  id : Nat
  user_id : Nat
  name : String
  species : String
  breed : Option String
  birth_date : Option Nat
deriving DecidableEq, Repr

structure EntryR where
  id : Nat
  pet_id : Nat
  type : String
  date : Nat
  text : String
deriving DecidableEq, Repr

structure AttachmentR where
  id : Nat
  entry_id : Nat
  kind : String
  file_id : String
  file_unique_id : Option String
deriving DecidableEq, Repr

structure ReminderR where
  id : Nat
  user_id : Nat
  pet_id : Nat
  entry_id : Option Nat
  title : String
  due_at : Nat
  period_days : Option Nat
  is_done : Bool
  last_sent_at : Option Nat
deriving DecidableEq, Repr

/-- The relational store: one list per table plus autoincrement ids. -/
structure Store where
  users : List UserR
  pets : List PetR
  entries : List EntryR
  attachments : List AttachmentR
  reminders : List ReminderR
  nextUserId : Nat
  nextPetId : Nat
  nextEntryId : Nat
  nextAttachmentId : Nat
  nextReminderId : Nat
deriving DecidableEq, Repr

/-! ## Conversation state (aiogram FSMContext) -/

inductive StateTag where
  | addPetName | addPetSpecies | addPetBreed
  | addEntryType | addEntryDateChoice | addEntryCustomDate | addEntryText
  | attachAdding
  | vremChoosingVaccine | vremChoosingDelay | vremCustomDelay
deriving DecidableEq, Repr

/-- The free-form FSM data bag: one optional slot per key the handlers
    ever store (`state.update_data` merges, `state.get_data().get(k)`). -/
structure DataBag where
  name : Option String := none
  species : Option String := none
  breed : Option String := none
  entry_type : Option String := none
  date : Option String := none
  entry_id : Option Nat := none
  pet_id : Option Nat := none
  pet_name : Option String := none
  reminder_title : Option String := none
deriving DecidableEq, Repr

structure Conv where
  tag : Option StateTag
  bag : DataBag
deriving DecidableEq, Repr

/-- `state.clear()`. -/
def Conv.empty : Conv := ⟨none, {}⟩

/-! ## Python truthiness -/

def optNatTruthy : Option Nat → Bool
  | none => false
  | some n => n ≠ 0

def optStrTruthy : Option String → Bool
  | none => false
  | some s => s ≠ ""

/-! ## Outbound transport actions -/

inductive Reply where
  /-- `message.answer text` -/
  | message (text : String)
  /-- `callback.message.edit_text text` -/
  | editText (text : String)
  /-- `callback.answer` with optional text / modal alert -/
  | callbackAnswer (text : Option String) (alert : Bool)
  | sendPhoto (file_id : String)
  | sendDocument (file_id : String)
deriving DecidableEq, Repr

/-- Result of a handler that may touch store and conversation state. -/
structure HOut where
  conv : Conv
  store : Store
  replies : List Reply
deriving DecidableEq, Repr

/-! ## Validators (src/app/validators.py)

`validate_pet_name` is defined in validators.py (constants
`MAX_PET_NAME_LENGTH = 64`) but — notably — never imported by
src/app/bot.py. -/

/-- `validate_pet_name`: strip, reject empty, reject length > 64,
    reject names containing `<` or `>`; return the cleaned name. -/
def validate_pet_name (name : String) : Except String String :=
  let name := pyStrip name
  if name = "" then .error "Имя не может быть пустым."
  else if name.length > 64 then .error "Имя слишком длинное (максимум 64 символов)."
  else if name.toList.contains '<' || name.toList.contains '>' then
    .error "Имя содержит недопустимые символы."
  else .ok name

/-! ## User bootstrap (src/app/bot.py `ensure_user`)

Several handlers inline the identical get-or-create block
(`select(User).where(User.telegram_id == ...)`, insert when absent);
all of them are modelled through this one definition. -/

def ensure_user (tid : Nat) (s : Store) : UserR × Store :=
  match s.users.find? (fun u => u.telegram_id == tid) with
  | some u => (u, s)
  | none =>
    let u : UserR := ⟨s.nextUserId, tid, none⟩
    (u, { s with users := s.users ++ [u], nextUserId := s.nextUserId + 1 })

/-! ## Pets menu and Add-Entry entry point -/

/-- `show_pets_menu`: the screen text (the keyboard items are
    presentation and dropped).  `order_by(Pet.id)` coincides with the
    store's insertion order, since ids are assigned increasingly. -/
def show_pets_menu (tid : Nat) (s : Store) : Store × List Reply :=
  let (user, s1) := ensure_user tid s
  let pets := s1.pets.filter (fun p => p.user_id == user.id)
  let text :=
    if pets = [] then
      "У вас пока нет питомцев.\n\nНажмите «➕ Добавить питомца», чтобы создать первую карту."
    else
      let active_name :=
        if optNatTruthy user.active_pet_id then
          (pets.find? (fun p => some p.id == user.active_pet_id)).map (·.name)
        else none
      let active_line :=
        match active_name with
        | some n => "⭐ Активный: " ++ n
        | none => "Активный питомец не выбран."
      active_line ++ "\n\nСписок питомцев ниже. Нажмите на питомца, чтобы открыть карточку."
  (s1, [Reply.message text])

/-- `start_entry_flow`: redirect to pet selection when no active pet,
    otherwise enter the Add-Entry wizard at the Type step. -/
def start_entry_flow (tid : Nat) (conv : Conv) (s : Store) : HOut :=
  let (user, s1) := ensure_user tid s
  if !(optNatTruthy user.active_pet_id) then
    let (s2, menu) := show_pets_menu tid s1
    ⟨conv, s2,
      [Reply.message "Сначала выберите активного питомца в разделе «Питомцы»."] ++ menu⟩
  else
    ⟨{ conv with tag := some .addEntryType }, s1,
      [Reply.message "Выберите тип записи:"]⟩

/-! ## Add-Pet wizard -/

def pets_add_name (text : String) (conv : Conv) : Conv × List Reply :=
  let name := pyStrip text
  if name = "" then
    (conv, [Reply.message "Имя не может быть пустым. Попробуйте ещё раз."])
  else
    (⟨some .addPetSpecies, { conv.bag with name := some name }⟩,
     [Reply.message ("Имя: <b>" ++ name ++ "</b>\nВыберите вид питомца:")])

def pets_add_species (payload : String) (conv : Conv) : Conv × List Reply :=
  let species := partitionColonTail payload
  if !(species = "cat" || species = "dog" || species = "other") then
    (conv, [Reply.callbackAnswer (some "Выберите вид из списка") true])
  else
    (⟨some .addPetBreed, { conv.bag with species := some species }⟩,
     [Reply.editText "Введите породу питомца или нажмите «➡ Пропустить».",
      Reply.callbackAnswer none false])

/-- `finalize_pet_creation`; `viaMessage` distinguishes the
    `Message` / `CallbackQuery` reply paths of the source. -/
def finalize_pet_creation (viaMessage : Bool) (tid : Nat) (conv : Conv) (s : Store) :
    HOut :=
  let name := conv.bag.name
  let species := conv.bag.species
  let breed := conv.bag.breed
  if !(optStrTruthy name) || !(optStrTruthy species) then
    let failText := "Не удалось создать питомца. Попробуйте снова через раздел «Питомцы»."
    ⟨Conv.empty, s,
     [if viaMessage then Reply.message failText else Reply.editText failText]⟩
  else
    let (user, s1) := ensure_user tid s
    let pet : PetR := ⟨s1.nextPetId, user.id, name.getD "", species.getD "", breed, none⟩
    let s2 := { s1 with pets := s1.pets ++ [pet], nextPetId := s1.nextPetId + 1 }
    let text := "Питомец <b>" ++ pet.name ++ "</b> создан.\n\n" ++
      "Вы можете сделать его активным, чтобы добавлять записи именно для него."
    ⟨Conv.empty, s2,
     [if viaMessage then Reply.message text else Reply.editText text]⟩

def pets_add_breed_skip (tid : Nat) (conv : Conv) (s : Store) : HOut :=
  let conv' : Conv := ⟨conv.tag, { conv.bag with breed := none }⟩
  let r := finalize_pet_creation false tid conv' s
  ⟨r.conv, r.store, r.replies ++ [Reply.callbackAnswer none false]⟩

def pets_add_breed (text : String) (tid : Nat) (conv : Conv) (s : Store) : HOut :=
  let breed := pyStrip text
  if breed = "" then
    ⟨conv, s,
     [Reply.message "Порода не может быть пустой. Введите текст или нажмите «➡ Пропустить»."]⟩
  else
    finalize_pet_creation true tid ⟨conv.tag, { conv.bag with breed := some breed }⟩ s

/-! ## Add-Entry wizard -/

def entry_type_callback (payload : String) (conv : Conv) : Conv × List Reply :=
  let parts := splitColon payload
  if parts.length ≠ 3 then
    (conv, [Reply.callbackAnswer (some "Некорректные данные") true])
  else
    let entry_type := parts.getD 2 ""
    if !(entry_type = "symptom" || entry_type = "visit" || entry_type = "vaccine" ||
         entry_type = "meds" || entry_type = "other") then
      (conv, [Reply.callbackAnswer (some "Некорректный тип записи") true])
    else
      (⟨some .addEntryDateChoice, { conv.bag with entry_type := some entry_type }⟩,
       [Reply.editText "Выберите дату записи:", Reply.callbackAnswer none false])

def entry_date_callback (payload : String) (now : Nat) (conv : Conv) :
    Conv × List Reply :=
  let parts := splitColon payload
  if parts.length ≠ 3 then
    (conv, [Reply.callbackAnswer (some "Некорректные данные") true])
  else
    let choice := parts.getD 2 ""
    if choice = "today" then
      (⟨some .addEntryText, { conv.bag with date := some (isoformat now) }⟩,
       [Reply.editText "Введите текст записи (описание симптома, визита и т.п.):",
        Reply.callbackAnswer none false])
    else if choice = "yesterday" then
      (⟨some .addEntryText, { conv.bag with date := some (isoformat (now - 1)) }⟩,
       [Reply.editText "Введите текст записи (описание симптома, визита и т.п.):",
        Reply.callbackAnswer none false])
    else if choice = "custom" then
      (⟨some .addEntryCustomDate, conv.bag⟩,
       [Reply.editText "Введите дату в формате YYYY-MM-DD:",
        Reply.callbackAnswer none false])
    else
      (conv, [Reply.callbackAnswer (some "Некорректный выбор даты") true])

/-- The custom-date step: `datetime.strptime(text, "%Y-%m-%d")` is the
    only check performed — `validators.validate_date` is not called. -/
def entry_custom_date_message (text : String) (conv : Conv) : Conv × List Reply :=
  let t := pyStrip text
  match strptimeYmd t with
  | none =>
    (conv,
     [Reply.message "Не удалось распознать дату. Введите в формате YYYY-MM-DD, например 2025-12-01."])
  | some day =>
    (⟨some .addEntryText, { conv.bag with date := some (isoformat day) }⟩,
     [Reply.message "Введите текст записи (описание симптома, визита и т.п.):"])

def entryTypeTitle (t : String) : String :=
  if t = "symptom" then "Симптом"
  else if t = "visit" then "Визит"
  else if t = "vaccine" then "Прививка"
  else if t = "meds" then "Лекарство"
  else if t = "other" then "Другое"
  else t

def entry_text_message (text : String) (tid : Nat) (conv : Conv) (s : Store) : HOut :=
  let t := pyStrip text
  if t = "" then
    ⟨conv, s, [Reply.message "Текст записи не может быть пустым. Введите описание."]⟩
  else
    let entry_type := conv.bag.entry_type
    let raw_date := conv.bag.date
    if !(optStrTruthy entry_type) || !(optStrTruthy raw_date) then
      ⟨Conv.empty, s,
       [Reply.message "Что-то пошло не так при сохранении записи. Попробуйте ещё раз."]⟩
    else
      match fromIsoformat (raw_date.getD "") with
      | none =>
        ⟨Conv.empty, s,
         [Reply.message "Дата записи повреждена. Попробуйте создать запись заново."]⟩
      | some date =>
        let (user, s1) := ensure_user tid s
        if !(optNatTruthy user.active_pet_id) then
          ⟨Conv.empty, s1,
           [Reply.message "Активный питомец не выбран. Сначала выберите питомца в разделе «Питомцы»."]⟩
        else
          match s1.pets.find? (fun p => some p.id == user.active_pet_id) with
          | none =>
            ⟨Conv.empty, s1,
             [Reply.message "Активный питомец не найден. Попробуйте выбрать его заново."]⟩
          | some pet =>
            let entry : EntryR := ⟨s1.nextEntryId, pet.id, entry_type.getD "", date, t⟩
            let s2 := { s1 with entries := s1.entries ++ [entry],
                                nextEntryId := s1.nextEntryId + 1 }
            let savedText :=
              "Запись сохранена ✅\n\nПитомец: <b>" ++ pet.name ++ "</b>\nТип: " ++
              entryTypeTitle (entry_type.getD "") ++ "\nДата: " ++ dateToStr date ++
              "\n\nВы можете прикрепить к этой записи файлы (фото, документы) сейчас " ++
              "или сделать это позже через историю."
            ⟨Conv.empty, s2, [Reply.message savedText]⟩

/-! ## Vaccine-reminder wizard (custom-delay step and terminal step) -/

/-- `_create_vaccine_reminder`: `due_at = utcnow() + timedelta(days)`;
    the callers guarantee `days > 0` on the custom path.  A missing
    `pet_id` in the bag would be a NOT NULL violation in the store; the
    bag is always filled by `vaccine_reminder_start` before this state
    is reachable, so the default 0 is inert. -/
def create_vaccine_reminder (viaMessage : Bool) (tid : Nat) (now : Nat) (days : Nat)
    (conv : Conv) (s : Store) : HOut :=
  let entry_id := conv.bag.entry_id
  let pet_id := conv.bag.pet_id
  let pet_name := conv.bag.pet_name
  let title := conv.bag.reminder_title.getD "Прививка"
  let due_at := now + days
  let (user, s1) := ensure_user tid s
  let reminder : ReminderR :=
    ⟨s1.nextReminderId, user.id, pet_id.getD 0, entry_id, title, due_at, none, false, none⟩
  let s2 := { s1 with reminders := s1.reminders ++ [reminder],
                      nextReminderId := s1.nextReminderId + 1 }
  let text :=
    "Напоминание создано ✅\n\nПитомец: <b>" ++ pet_name.getD "None" ++
    "</b>\nСобытие: " ++ title ++ "\nДата напоминания: " ++ dateToStr due_at
  if viaMessage then
    ⟨Conv.empty, s2, [Reply.message text]⟩
  else
    ⟨Conv.empty, s2, [Reply.editText text, Reply.callbackAnswer none false]⟩

def vaccine_custom_delay_message (text : String) (tid : Nat) (now : Nat)
    (conv : Conv) (s : Store) : HOut :=
  let t := pyStrip text
  match parsePyInt t with
  | none => ⟨conv, s, [Reply.message "Нужно ввести целое число дней, например 30."]⟩
  | some days =>
    if days ≤ 0 then
      ⟨conv, s, [Reply.message "Число дней должно быть больше нуля."]⟩
    else
      create_vaccine_reminder true tid now days.toNat conv s

/-! ## Medication-repeat shortcut -/

/-- Ownership join used by several handlers:
    `select(Entry).join(Pet, Entry.pet_id == Pet.id)
       .where(Entry.id == entry_id, Pet.user_id == user.id)`. -/
def findOwnedEntry (s : Store) (eid : Int) (uid : Nat) : Option EntryR :=
  s.entries.find? (fun e =>
    (e.id : Int) == eid &&
    s.pets.any (fun p => p.id == e.pet_id && p.user_id == uid))

/-- `meds_dewormer_reminder_start`: a single-step action (no FSM
    argument in the source); `due_at = entry.date + timedelta(days=10)`. -/
def meds_dewormer_reminder_start (payload : String) (tid : Nat) (s : Store) :
    Store × List Reply :=
  let parts := splitColon payload
  if parts.length ≠ 3 then
    (s, [Reply.callbackAnswer (some "Некорректные данные") true])
  else
    match parsePyInt (parts.getD 2 "") with
    | none => (s, [Reply.callbackAnswer (some "Не удалось определить запись") true])
    | some entry_id =>
      match s.users.find? (fun u => u.telegram_id == tid) with
      | none => (s, [Reply.callbackAnswer (some "Сначала используйте /start") true])
      | some user =>
        match findOwnedEntry s entry_id user.id with
        | none => (s, [Reply.callbackAnswer (some "Запись не найдена") true])
        | some entry =>
          match s.pets.find? (fun p => p.id == entry.pet_id) with
          | none => (s, [Reply.callbackAnswer (some "Питомец не найден") true])
          | some pet =>
            let due_at := entry.date + 10
            let reminder : ReminderR :=
              ⟨s.nextReminderId, user.id, pet.id, some entry.id,
               "Повтор глистогонного", due_at, none, false, none⟩
            let s1 := { s with reminders := s.reminders ++ [reminder],
                               nextReminderId := s.nextReminderId + 1 }
            let text :=
              "Напоминание о повторной даче глистогонного создано ✅\n\nПитомец: <b>" ++
              pet.name ++ "</b>\nДата напоминания: " ++ dateToStr due_at
            (s1, [Reply.editText text, Reply.callbackAnswer none false])

/-! ## Attach-files wizard -/

structure IncomingFile where
  file_id : String
  file_unique_id : Option String
deriving DecidableEq, Repr

/-- `entry_attach_photo`: with the entry id missing from the bag (or no
    photo on the message) the handler silently returns — no state
    change, no reply. -/
def entry_attach_photo (photo : Option IncomingFile) (conv : Conv) (s : Store) : HOut :=
  let entry_id := conv.bag.entry_id
  if !(optNatTruthy entry_id) || photo.isNone then
    ⟨conv, s, []⟩
  else
    match photo with
    | none => ⟨conv, s, []⟩
    | some ph =>
      let att : AttachmentR :=
        ⟨s.nextAttachmentId, entry_id.getD 0, "photo", ph.file_id, ph.file_unique_id⟩
      ⟨conv, { s with attachments := s.attachments ++ [att],
                      nextAttachmentId := s.nextAttachmentId + 1 },
       [Reply.message "Фото прикреплено ✅"]⟩

/-! ## History / file callbacks (ownership-joined lookups) -/

def entry_view_callback (payload : String) (tid : Nat) (s : Store) : List Reply :=
  let parts := splitColon payload
  if parts.length ≠ 3 then
    [Reply.callbackAnswer (some "Некорректные данные") true]
  else
    match parsePyInt (parts.getD 2 "") with
    | none => [Reply.callbackAnswer (some "Не удалось определить запись") true]
    | some entry_id =>
      match s.users.find? (fun u => u.telegram_id == tid) with
      | none => [Reply.callbackAnswer (some "Сначала используйте /start") true]
      | some user =>
        match findOwnedEntry s entry_id user.id with
        | none => [Reply.callbackAnswer (some "Запись не найдена") true]
        | some entry =>
          let attachments := s.attachments.filter (fun a => a.entry_id == entry.id)
          let type_names := fun (t : String) =>
            if t = "symptom" then "🤒 Симптом"
            else if t = "visit" then "🏥 Визит"
            else if t = "vaccine" then "💉 Прививка"
            else if t = "meds" then "💊 Лекарство"
            else if t = "other" then "📝 Другое"
            else t
          let text :=
            "Дата: " ++ dateToStr entry.date ++ "\nТип: " ++ type_names entry.type ++
            "\nФайлов: " ++ natToStr attachments.length ++ "\n\n" ++ entry.text
          [Reply.editText text, Reply.callbackAnswer none false]

/-- Ownership join for attachments:
    `select(Attachment).join(Entry).join(Pet)
       .where(Attachment.id == attachment_id, Pet.user_id == user.id)`. -/
def findOwnedAttachment (s : Store) (aid : Int) (uid : Nat) : Option AttachmentR :=
  s.attachments.find? (fun a =>
    (a.id : Int) == aid &&
    s.entries.any (fun e =>
      e.id == a.entry_id &&
      s.pets.any (fun p => p.id == e.pet_id && p.user_id == uid)))

def file_send_callback (payload : String) (tid : Nat) (s : Store) : List Reply :=
  let parts := splitColon payload
  if parts.length ≠ 3 then
    [Reply.callbackAnswer (some "Некорректные данные") true]
  else
    match parsePyInt (parts.getD 2 "") with
    | none => [Reply.callbackAnswer (some "Не удалось определить файл") true]
    | some attachment_id =>
      match s.users.find? (fun u => u.telegram_id == tid) with
      | none => [Reply.callbackAnswer (some "Сначала используйте /start") true]
      | some user =>
        match findOwnedAttachment s attachment_id user.id with
        | none => [Reply.callbackAnswer (some "Файл не найден") true]
        | some attachment =>
          (if attachment.kind = "photo" then [Reply.sendPhoto attachment.file_id]
           else [Reply.sendDocument attachment.file_id]) ++
          [Reply.callbackAnswer none false]

/-- `pet_card_callback`: `select(Pet).where(Pet.id == pet_id,
    Pet.user_id == user.id)`; `nowYear` stands for `utcnow().year`. -/
def pet_card_callback (payload : String) (tid : Nat) (nowYear : Nat) (s : Store) :
    List Reply :=
  match parsePyInt (partitionColonTail payload) with
  | none => [Reply.callbackAnswer (some "Не удалось определить питомца") true]
  | some pet_id =>
    match s.users.find? (fun u => u.telegram_id == tid) with
    | none => [Reply.callbackAnswer (some "Сначала используйте /start") true]
    | some user =>
      match s.pets.find? (fun p => (p.id : Int) == pet_id && p.user_id == user.id) with
      | none => [Reply.callbackAnswer (some "Питомец не найден") true]
      | some pet =>
        let species :=
          if pet.species = "cat" then "Кот"
          else if pet.species = "dog" then "Пёс"
          else if pet.species = "other" then "Другое"
          else pet.species
        let species_icon :=
          if pet.species = "cat" then "🐱"
          else if pet.species = "dog" then "🐶"
          else "🐾"
        let age_line :=
          match pet.birth_date with
          | none => "Возраст не указан."
          | some bd => "Возраст: ~" ++ natToStr (nowYear - dateYear bd) ++ " г."
        let text :=
          species_icon ++ " <b>" ++ pet.name ++ "</b>\nВид: " ++ species ++ "\n" ++ age_line
        [Reply.editText text, Reply.callbackAnswer none false]

def pet_set_active_callback (payload : String) (tid : Nat) (s : Store) :
    Store × List Reply :=
  let parts := splitColon payload
  if parts.length ≠ 3 then
    (s, [Reply.callbackAnswer (some "Некорректные данные") true])
  else
    match parsePyInt (parts.getD 2 "") with
    | none => (s, [Reply.callbackAnswer (some "Не удалось определить питомца") true])
    | some pet_id =>
      match s.users.find? (fun u => u.telegram_id == tid) with
      | none => (s, [Reply.callbackAnswer (some "Сначала используйте /start") true])
      | some user =>
        match s.pets.find? (fun p => (p.id : Int) == pet_id && p.user_id == user.id) with
        | none => (s, [Reply.callbackAnswer (some "Питомец не найден") true])
        | some pet =>
          let s1 := { s with users := s.users.map (fun u =>
            if u.id == user.id then { u with active_pet_id := some pet.id } else u) }
          let text :=
            "🐾 <b>" ++ pet.name ++
            "</b>\nЭтот питомец теперь активен. Новые записи будут сохраняться для него."
          (s1, [Reply.editText text, Reply.callbackAnswer (some "Сделан активным") false])

/-! ## Summary -/

def intToStr (i : Int) : String :=
  if i < 0 then "-" ++ natToStr (-i).toNat else natToStr i.toNat

/-- Insertion sort by entry date (`order_by(Entry.date.asc())`). -/
def insertByDate (e : EntryR) : List EntryR → List EntryR
  | [] => [e]
  | x :: xs => if e.date ≤ x.date then e :: x :: xs else x :: insertByDate e xs

def sortByDateAsc (l : List EntryR) : List EntryR :=
  l.foldr insertByDate []

def summary_period_callback (payload : String) (tid : Nat) (now : Nat) (s : Store) :
    Store × List Reply :=
  let parts := splitColon payload
  if parts.length ≠ 3 then
    (s, [Reply.callbackAnswer (some "Некорректные данные") true])
  else
    match parsePyInt (parts.getD 2 "") with
    | none => (s, [Reply.callbackAnswer (some "Некорректный период") true])
    | some days =>
      let start_date : Int := (now : Int) - days
      let (user, s1) := ensure_user tid s
      if !(optNatTruthy user.active_pet_id) then
        (s1, [Reply.editText "Активный питомец не выбран. Откройте раздел «Питомцы» и сделайте питомца активным.",
              Reply.callbackAnswer none false])
      else
        match s1.pets.find? (fun p => some p.id == user.active_pet_id) with
        | none =>
          (s1, [Reply.editText "Активный питомец не найден. Попробуйте выбрать его заново.",
                Reply.callbackAnswer none false])
        | some pet =>
          let entries := sortByDateAsc (s1.entries.filter (fun e =>
            e.pet_id == pet.id && start_date ≤ (e.date : Int) && e.date ≤ now))
          let type_names := fun (t : String) =>
            if t = "symptom" then "🤒 Симптом"
            else if t = "visit" then "🏥 Визит"
            else if t = "vaccine" then "💉 Прививка"
            else if t = "meds" then "💊 Лекарство"
            else if t = "other" then "📝 Другое"
            else t
          let text :=
            if entries = [] then
              "За последние " ++ intToStr days ++ " дн. для питомца <b>" ++ pet.name ++
              "</b> записей нет."
            else
              let lines := entries.map (fun e =>
                dateToStr e.date ++ " · " ++ type_names e.type ++ ": " ++ e.text)
              "Сводка для питомца <b>" ++ pet.name ++ "</b>\nПериод: " ++
              dateToStr start_date.toNat ++ " — " ++ dateToStr now ++ "\n\n" ++
              String.intercalate "\n" lines
          (s1, [Reply.editText text, Reply.callbackAnswer none false])

/-! ## Reminder scheduler (`reminders_worker`, one pass of the loop) -/

/-- The inner joins of the worker's query:
    `select(Reminder, Pet, User).join(Pet).join(User)`. -/
def reminderJoins (s : Store) (r : ReminderR) : Option (PetR × UserR) :=
  match s.pets.find? (fun p => p.id == r.pet_id),
        s.users.find? (fun u => u.id == r.user_id) with
  | some p, some u => some (p, u)
  | _, _ => none

/-- Selection predicate of one pass:
    `Reminder.is_done.is_(False), Reminder.due_at <= now` plus the inner
    joins resolving. -/
def selectedForSend (s : Store) (now : Nat) (r : ReminderR) : Bool :=
  !r.is_done && decide (r.due_at ≤ now) && (reminderJoins s r).isSome

def reminderText (petName title : String) (due : Nat) : String :=
  "⏰ Напоминание о прививке\n\nПитомец: <b>" ++ petName ++ "</b>\nСобытие: " ++
  title ++ "\nДата: " ++ dateToStr due

structure SchedOut where
  store : Store
  /-- reminder ids for which exactly one `bot.send_message` attempt was
      made during this pass -/
  attempts : List Nat
  /-- `(telegram_id, text)` of the sends the transport accepted;
      `sendOk` models the transport outcome, whose failure the worker
      swallows (`except Exception: pass`) -/
  delivered : List (Nat × String)
deriving Repr

/-- One iteration of the `while True` body of `reminders_worker` at
    clock value `now`: select the due, attempt one send each
    (outcome ignored), then mark every selected reminder
    `is_done = True`, `last_sent_at = now` and commit. -/
def schedulerPass (sendOk : Nat → Bool) (now : Nat) (s : Store) : SchedOut :=
  let rows := s.reminders.filter (selectedForSend s now)
  let attempts := rows.map (·.id)
  let delivered := (rows.filter (fun r => sendOk r.id)).filterMap (fun r =>
    (reminderJoins s r).map (fun pu => (pu.2.telegram_id, reminderText pu.1.name r.title r.due_at)))
  let reminders' := s.reminders.map (fun r =>
    if selectedForSend s now r then { r with is_done := true, last_sent_at := some now }
    else r)
  ⟨{ s with reminders := reminders' }, attempts, delivered⟩

/-! ## Concrete fixtures used by the witnesses and counterexamples -/

/-- A fresh, empty store. -/
def emptyStore : Store := ⟨[], [], [], [], [], 1, 1, 1, 1, 1⟩

/-- One registered user (telegram id 1000), no pets. -/
def storeU : Store := ⟨[⟨1, 1000, none⟩], [], [], [], [], 2, 1, 1, 1, 1⟩

/-- Two users; user 2 owns a pet, an entry and an attachment; user 1
    (telegram id 100) owns nothing — the cross-user isolation fixture. -/
def storeTwo : Store :=
  ⟨[⟨1, 100, none⟩, ⟨2, 200, some 2⟩],
   [⟨2, 2, "Мурка", "cat", none, none⟩],
   [⟨5, 2, "visit", daysFromCivil 2024 6 1, "чужая запись"⟩],
   [⟨9, 5, "photo", "FILE-B", none⟩],
   [], 3, 3, 6, 10, 1⟩

/-- One user (telegram id 500) with a meds entry dated 2025-01-01. -/
def storeMeds : Store :=
  ⟨[⟨1, 500, some 1⟩],
   [⟨1, 1, "Барсик", "cat", none, none⟩],
   [⟨1, 1, "meds", daysFromCivil 2025 1 1, "глистогонное"⟩],
   [], [], 2, 2, 2, 1, 1⟩

/-- One user, one pet, one pending reminder due at instant 100. -/
def storeRem : Store :=
  ⟨[⟨1, 300, some 1⟩],
   [⟨1, 1, "Шарик", "dog", none, none⟩],
   [],
   [],
   [⟨1, 1, 1, some 1, "Прививка от бешенства", 100, none, false, none⟩],
   2, 2, 1, 1, 2⟩

/-! # Helper lemmas -/

theorem ensure_user_entries (tid : Nat) (s : Store) :
    (ensure_user tid s).2.entries = s.entries := by
  unfold ensure_user
  cases s.users.find? (fun u => u.telegram_id == tid) <;> rfl

theorem ensure_user_reminders (tid : Nat) (s : Store) :
    (ensure_user tid s).2.reminders = s.reminders := by
  unfold ensure_user
  cases s.users.find? (fun u => u.telegram_id == tid) <;> rfl

/-- In a list of reminders with pairwise-distinct ids, the ids of the
    `sel`-filtered sublist contain `x.id` exactly once when `x` is
    selected and not at all otherwise. -/
theorem count_id_of_filter (sel : ReminderR → Bool) (x : ReminderR) :
    ∀ (l : List ReminderR), (l.map (·.id)).Nodup → x ∈ l →
      ((l.filter sel).map (·.id)).count x.id = if sel x then 1 else 0 := by
  intro l
  induction l with
  | nil => intro _ h; cases h
  | cons y ys ih =>
    intro hnd hmem
    rw [List.map_cons, List.nodup_cons] at hnd
    have hsub : ∀ i, i ∈ (ys.filter sel).map (·.id) → i ∈ ys.map (·.id) := by
      intro i hi
      rcases List.mem_map.mp hi with ⟨z, hz, rfl⟩
      exact List.mem_map.mpr ⟨z, List.mem_of_mem_filter hz, rfl⟩
    rcases List.mem_cons.mp hmem with rfl | hmem'
    · have hnotin : x.id ∉ (ys.filter sel).map (·.id) := fun hc => hnd.1 (hsub _ hc)
      by_cases hsel : sel x
      · simp [List.filter_cons, hsel, List.count_cons, List.count_eq_zero.mpr hnotin]
      · simp [List.filter_cons, hsel, List.count_eq_zero.mpr hnotin]
    · have hxid : x.id ∈ ys.map (·.id) := List.mem_map.mpr ⟨x, hmem', rfl⟩
      have hne : y.id ≠ x.id := fun h => hnd.1 (h ▸ hxid)
      have hrec := ih hnd.2 hmem'
      by_cases hsely : sel y
      · simp [List.filter_cons, hsely, List.count_cons, hne, hrec]
      · simp [List.filter_cons, hsely, hrec]

/-- If applying `u` to any member that yields id `rid` also falsifies
    `sel`, then `rid` never appears among the selected updated ids. -/
theorem count_id_filter_map_eq_zero (u : ReminderR → ReminderR)
    (sel : ReminderR → Bool) (rid : Nat) (l : List ReminderR)
    (h : ∀ x ∈ l, (u x).id = rid → sel (u x) = false) :
    (((l.map u).filter sel).map (·.id)).count rid = 0 := by
  rw [List.count_eq_zero]
  intro hc
  rcases List.mem_map.mp hc with ⟨z, hz, hzid⟩
  rcases List.mem_filter.mp hz with ⟨hzmem, hzsel⟩
  rcases List.mem_map.mp hzmem with ⟨x, hx, rfl⟩
  rw [h x hx hzid] at hzsel
  cases hzsel

theorem ensure_user_found {tid : Nat} {s : Store} {u : UserR}
    (h : s.users.find? (fun x => x.telegram_id == tid) = some u) :
    ensure_user tid s = (u, s) := by
  unfold ensure_user
  rw [h]

theorem ensure_user_not_found {tid : Nat} {s : Store}
    (h : s.users.find? (fun x => x.telegram_id == tid) = none) :
    ensure_user tid s =
      (⟨s.nextUserId, tid, none⟩,
       { s with users := s.users ++ [⟨s.nextUserId, tid, none⟩],
                nextUserId := s.nextUserId + 1 }) := by
  unfold ensure_user
  rw [h]

/-! # Claim theorems -/

/-- C1: the spec claims the custom-date step rejects "2030-01-01"
    (beyond the +1-day future bound) and "1899-01-01" (before 1900) with
    a re-prompt.  Evaluating the embedded handler shows the code accepts
    all three dates — any string `strptime` can parse is stored and the
    wizard advances to the text step; `validators.validate_date` (which
    implements both bounds) is never invoked by the wizard. -/
theorem c1_custom_date_step_accepts_all_parseable_dates :
    (entry_custom_date_message "2030-01-01" ⟨some .addEntryCustomDate, {}⟩ =
      (⟨some .addEntryText, { date := some "2030-01-01T00:00:00" }⟩,
       [Reply.message "Введите текст записи (описание симптома, визита и т.п.):"])) ∧
    (entry_custom_date_message "1899-01-01" ⟨some .addEntryCustomDate, {}⟩ =
      (⟨some .addEntryText, { date := some "1899-01-01T00:00:00" }⟩,
       [Reply.message "Введите текст записи (описание симптома, визита и т.п.):"])) ∧
    (entry_custom_date_message "2024-06-01" ⟨some .addEntryCustomDate, {}⟩ =
      (⟨some .addEntryText, { date := some "2024-06-01T00:00:00" }⟩,
       [Reply.message "Введите текст записи (описание симптома, визита и т.п.):"])) := by
  refine ⟨?_, ?_, ?_⟩ <;> rfl

/-- C3: the spec claims every Pet persisted by the Add-Pet wizard has a
    name free of `<`/`>` (and ≤ 64 chars), with violating input rejected
    at the Name step.  Running the wizard end to end on the name
    `<b>Rex</b>` shows the Name step advances (no re-prompt) and the Pet
    is persisted with the markup-breaking name, even though the repo's
    own `validate_pet_name` rejects exactly this input — the handler
    never calls it. -/
theorem c3_add_pet_wizard_skips_name_validation :
    (pets_add_name "<b>Rex</b>" ⟨some .addPetName, {}⟩).1 =
      ⟨some .addPetSpecies, { name := some "<b>Rex</b>" }⟩ ∧
    ((pets_add_breed_skip 1000
        (pets_add_species "species:cat"
          (pets_add_name "<b>Rex</b>" ⟨some .addPetName, {}⟩).1).1
        storeU).store.pets.map (·.name)) = ["<b>Rex</b>"] ∧
    "<b>Rex</b>".toList.contains '<' = true ∧
    validate_pet_name "<b>Rex</b>" = Except.error "Имя содержит недопустимые символы." := by
  refine ⟨?_, ?_, ?_, ?_⟩ <;> rfl

/-- C10: `ensure_user` is get-or-create keyed on the unique telegram id:
    the returned row carries the requested telegram id, a second
    invocation returns the same row and inserts nothing, and the
    at-most-one-row-per-telegram-id invariant is preserved. -/
theorem c10_ensure_user_get_or_create_idempotent (tid : Nat) (s : Store)
    (h : (s.users.filter (fun u => u.telegram_id == tid)).length ≤ 1) :
    (ensure_user tid s).1.telegram_id = tid ∧
    ensure_user tid (ensure_user tid s).2 = ensure_user tid s ∧
    ((ensure_user tid s).2.users.filter (fun u => u.telegram_id == tid)).length ≤ 1 := by
  cases hf : s.users.find? (fun x => x.telegram_id == tid) with
  | some u =>
    have hu := List.find?_some hf
    simp only [] at hu
    rw [ensure_user_found hf]
    refine ⟨by simpa using hu, by rw [ensure_user_found hf], by simpa using h⟩
  | none =>
    rw [ensure_user_not_found hf]
    have hememptyfilter : s.users.filter (fun x => x.telegram_id == tid) = [] :=
      List.filter_eq_nil_iff.mpr (by simpa using List.find?_eq_none.mp hf)
    have hfind2 :
        (s.users ++ [(⟨s.nextUserId, tid, none⟩ : UserR)]).find?
          (fun x => x.telegram_id == tid) = some ⟨s.nextUserId, tid, none⟩ := by
      rw [List.find?_append, hf]
      simp
    refine ⟨rfl, ?_, ?_⟩
    · rw [ensure_user_found hfind2]
    · simp [List.filter_append, hememptyfilter]

/-- C7: the medication-repeat shortcut, in one step with no
    conversation state, creates exactly one Reminder tied to the
    requesting user, the entry's pet and the entry itself, with
    `due_at = entry.date + 10` days, leaving every other table
    untouched. -/
theorem c7_meds_repeat_creates_ten_day_reminder (payload : String) (tid : Nat)
    (s : Store) (u : UserR) (e : EntryR) (p : PetR) (estr : String) (eid : Int)
    (hsplit : splitColon payload = ["mrem", "start", estr])
    (hparse : parsePyInt estr = some eid)
    (huser : s.users.find? (fun x => x.telegram_id == tid) = some u)
    (hentry : findOwnedEntry s eid u.id = some e)
    (hpet : s.pets.find? (fun x => x.id == e.pet_id) = some p) :
    meds_dewormer_reminder_start payload tid s =
      ({ s with
          reminders := s.reminders ++
            [⟨s.nextReminderId, u.id, p.id, some e.id, "Повтор глистогонного",
              e.date + 10, none, false, none⟩],
          nextReminderId := s.nextReminderId + 1 },
       [Reply.editText
          ("Напоминание о повторной даче глистогонного создано ✅\n\nПитомец: <b>" ++
           p.name ++ "</b>\nДата напоминания: " ++ dateToStr (e.date + 10)),
        Reply.callbackAnswer none false]) := by
  unfold meds_dewormer_reminder_start
  rw [hsplit]
  simp [List.getD, hparse, huser, hentry, hpet]

/-- Witness for C7 at the spec's example: an entry dated 2025-01-01
    yields a reminder due 2025-01-11. -/
theorem c7_meds_repeat_witness :
    meds_dewormer_reminder_start "mrem:start:1" 500 storeMeds =
      ({ storeMeds with
          reminders := storeMeds.reminders ++
            [⟨storeMeds.nextReminderId, 1, 1, some 1, "Повтор глистогонного",
              daysFromCivil 2025 1 1 + 10, none, false, none⟩],
          nextReminderId := storeMeds.nextReminderId + 1 },
       [Reply.editText
          ("Напоминание о повторной даче глистогонного создано ✅\n\nПитомец: <b>" ++
           "Барсик" ++ "</b>\nДата напоминания: " ++ dateToStr (daysFromCivil 2025 1 1 + 10)),
        Reply.callbackAnswer none false]) ∧
    daysFromCivil 2025 1 1 + 10 = daysFromCivil 2025 1 11 := by
  refine ⟨?_, by decide⟩
  exact c7_meds_repeat_creates_ten_day_reminder "mrem:start:1" 500 storeMeds
    ⟨1, 500, some 1⟩ ⟨1, 1, "meds", daysFromCivil 2025 1 1, "глистогонное"⟩
    ⟨1, 1, "Барсик", "cat", none, none⟩ "1" 1
    (by decide) (by decide) (by decide) (by decide) (by decide)

/-- Witness for C10 on the empty store. -/
theorem c10_ensure_user_witness :
    (ensure_user 7 emptyStore).1.telegram_id = 7 ∧
    ensure_user 7 (ensure_user 7 emptyStore).2 = ensure_user 7 emptyStore ∧
    ((ensure_user 7 emptyStore).2.users.filter
        (fun u => u.telegram_id == 7)).length ≤ 1 :=
  c10_ensure_user_get_or_create_idempotent 7 emptyStore (by decide)

/-- C2: one scheduler pass selects exactly the not-done reminders that
    are due, makes exactly one delivery attempt per selected reminder
    (whatever the transport outcome `ok1`), marks every selected
    reminder done with `last_sent_at = now` — success and failure
    alike — leaves unselected reminders untouched, and a second pass
    never attempts the consumed reminder again. -/
theorem c2_scheduler_consumes_each_due_reminder_once
    (s : Store) (ok1 ok2 : Nat → Bool) (now now' : Nat) (r : ReminderR)
    (hnodup : (s.reminders.map (·.id)).Nodup)
    (hwf : ∀ x ∈ s.reminders, (reminderJoins s x).isSome = true)
    (hmem : r ∈ s.reminders)
    (hdone : r.is_done = false) (hdue : r.due_at ≤ now) :
    (∀ x ∈ s.reminders,
        selectedForSend s now x = (!x.is_done && decide (x.due_at ≤ now))) ∧
    (schedulerPass ok1 now s).attempts.count r.id = 1 ∧
    (∀ x ∈ s.reminders, selectedForSend s now x = true →
        { x with is_done := true, last_sent_at := some now } ∈
          (schedulerPass ok1 now s).store.reminders) ∧
    (∀ x ∈ s.reminders, selectedForSend s now x = false →
        x ∈ (schedulerPass ok1 now s).store.reminders) ∧
    (schedulerPass ok2 now' (schedulerPass ok1 now s).store).attempts.count r.id = 0 := by
  have hselr : selectedForSend s now r = true := by
    simp [selectedForSend, hdone, hdue, hwf r hmem]
  refine ⟨?_, ?_, ?_, ?_, ?_⟩
  · intro x hx
    simp [selectedForSend, hwf x hx]
  · have hc := count_id_of_filter (selectedForSend s now) r s.reminders hnodup hmem
    simpa [schedulerPass, hselr] using hc
  · intro x hx hsel
    exact List.mem_map.mpr ⟨x, hx, by simp [hsel]⟩
  · intro x hx hsel
    exact List.mem_map.mpr ⟨x, hx, by simp [hsel]⟩
  · show ((((s.reminders.map fun x =>
        if selectedForSend s now x then
          { x with is_done := true, last_sent_at := some now }
        else x).filter
          (selectedForSend (schedulerPass ok1 now s).store now')).map (·.id)).count r.id) = 0
    apply count_id_filter_map_eq_zero
    intro x hx hid
    have hpid : (if selectedForSend s now x then
        { x with is_done := true, last_sent_at := some now } else x).id = x.id := by
      by_cases hc : selectedForSend s now x <;> simp [hc]
    rw [hpid] at hid
    have hxr : x = r := List.inj_on_of_nodup_map hnodup hx hmem hid
    subst hxr
    rw [if_pos hselr]
    simp [selectedForSend]

/-- Witness for C2: the fixture reminder is due at instant 100; the
    first pass (whose transport send fails) attempts it exactly once
    and marks it done; the second pass at instant 160 never attempts
    it again. -/
theorem c2_scheduler_witness :
    (schedulerPass (fun _ => false) 100 storeRem).attempts.count 1 = 1 ∧
    ((⟨1, 1, 1, some 1, "Прививка от бешенства", 100, none, true, some 100⟩ : ReminderR) ∈
        (schedulerPass (fun _ => false) 100 storeRem).store.reminders) ∧
    (schedulerPass (fun _ => true) 160
        (schedulerPass (fun _ => false) 100 storeRem).store).attempts.count 1 = 0 := by
  have h := c2_scheduler_consumes_each_due_reminder_once storeRem
    (fun _ => false) (fun _ => true) 100 160
    ⟨1, 1, 1, some 1, "Прививка от бешенства", 100, none, false, none⟩
    (by decide) (by decide) (by decide) (by decide) (by decide)
  exact ⟨h.2.1,
    h.2.2.1 ⟨1, 1, 1, some 1, "Прививка от бешенства", 100, none, false, none⟩
      (by decide) (by decide),
    h.2.2.2.2⟩

/-- C4: when the ownership join finds nothing for the requesting user —
    whether the guessed id belongs to another user's record or to no
    record at all — the entry-view, file-send and pet-card handlers all
    answer with a constant "not found" alert carrying no record data. -/
theorem c4_cross_user_lookup_denied (pl1 pl2 pl3 : String) (tid nowYear : Nat)
    (s : Store) (u : UserR) (eid aid pid : Int) (t1 t2 : String)
    (hu : s.users.find? (fun x => x.telegram_id == tid) = some u)
    (h1 : splitColon pl1 = ["entry", "view", t1])
    (h2 : parsePyInt t1 = some eid)
    (h3 : findOwnedEntry s eid u.id = none)
    (h4 : splitColon pl2 = ["file", "send", t2])
    (h5 : parsePyInt t2 = some aid)
    (h6 : findOwnedAttachment s aid u.id = none)
    (h8 : parsePyInt (partitionColonTail pl3) = some pid)
    (h9 : s.pets.find? (fun p => (p.id : Int) == pid && p.user_id == u.id) = none) :
    entry_view_callback pl1 tid s =
      [Reply.callbackAnswer (some "Запись не найдена") true] ∧
    file_send_callback pl2 tid s =
      [Reply.callbackAnswer (some "Файл не найден") true] ∧
    pet_card_callback pl3 tid nowYear s =
      [Reply.callbackAnswer (some "Питомец не найден") true] := by
  refine ⟨?_, ?_, ?_⟩
  · unfold entry_view_callback
    rw [h1]
    simp [List.getD, h2, hu, h3]
  · unfold file_send_callback
    rw [h4]
    simp [List.getD, h5, hu, h6]
  · unfold pet_card_callback
    rw [h8]
    simp [hu, h9]

/-- Witness for C4 on the two-user fixture: user 1 (telegram id 100)
    probes entry 5, attachment 9 and pet 2, all of which exist but
    belong to user 2; every reply is the constant denial, and probing
    an entry id that does not exist at all (777) yields the identical
    observable reply. -/
theorem c4_cross_user_lookup_witness :
    entry_view_callback "entry:view:5" 100 storeTwo =
      [Reply.callbackAnswer (some "Запись не найдена") true] ∧
    file_send_callback "file:send:9" 100 storeTwo =
      [Reply.callbackAnswer (some "Файл не найден") true] ∧
    pet_card_callback "pet:2" 100 2025 storeTwo =
      [Reply.callbackAnswer (some "Питомец не найден") true] ∧
    entry_view_callback "entry:view:5" 100 storeTwo =
      entry_view_callback "entry:view:777" 100 storeTwo := by
  have hA := c4_cross_user_lookup_denied "entry:view:5" "file:send:9" "pet:2" 100 2025
    storeTwo ⟨1, 100, none⟩ 5 9 2 "5" "9"
    (by decide) (by decide) (by decide) (by decide) (by decide) (by decide)
    (by decide) (by decide) (by decide)
  have hB := c4_cross_user_lookup_denied "entry:view:777" "file:send:9" "pet:2" 100 2025
    storeTwo ⟨1, 100, none⟩ 777 9 2 "777" "9"
    (by decide) (by decide) (by decide) (by decide) (by decide) (by decide)
    (by decide) (by decide) (by decide)
  exact ⟨hA.1, hA.2.1, hA.2.2, hA.1.trans hB.1.symm⟩

/-- C5 counterexample: a photo arriving in the attach-files state with
    the entry id missing from the data bag is silently ignored — the
    conversation state is NOT cleared and the user is NOT told to
    restart, contradicting the claim at this concrete input. -/
theorem c5_attach_missing_context_not_cleared :
    (entry_attach_photo (some ⟨"file-1", none⟩)
        ⟨some .attachAdding, {}⟩ storeU).conv = ⟨some .attachAdding, {}⟩ ∧
    (entry_attach_photo (some ⟨"file-1", none⟩)
        ⟨some .attachAdding, {}⟩ storeU).conv ≠ Conv.empty ∧
    (entry_attach_photo (some ⟨"file-1", none⟩)
        ⟨some .attachAdding, {}⟩ storeU).replies = [] := by
  refine ⟨rfl, by decide, rfl⟩

/-- C5 amended: at pet finalization (missing name or species) and at
    the entry text step (missing entry type or date) the conversation
    state is cleared and the user is told to restart; however, a photo
    in the attach-files state with no entry id in the bag is silently
    dropped — state kept, nothing inserted, no reply. -/
theorem c5_missing_context_handling
    (viaMessage : Bool) (tid : Nat) (conv1 conv2 conv3 : Conv) (s : Store)
    (text : String) (ph : IncomingFile)
    (h1 : optStrTruthy conv1.bag.name = false ∨ optStrTruthy conv1.bag.species = false)
    (h2t : pyStrip text ≠ "")
    (h2 : optStrTruthy conv2.bag.entry_type = false ∨ optStrTruthy conv2.bag.date = false)
    (h3 : optNatTruthy conv3.bag.entry_id = false) :
    (finalize_pet_creation viaMessage tid conv1 s =
      ⟨Conv.empty, s,
       [if viaMessage then
          Reply.message "Не удалось создать питомца. Попробуйте снова через раздел «Питомцы»."
        else
          Reply.editText "Не удалось создать питомца. Попробуйте снова через раздел «Питомцы»."]⟩) ∧
    (entry_text_message text tid conv2 s =
      ⟨Conv.empty, s,
       [Reply.message "Что-то пошло не так при сохранении записи. Попробуйте ещё раз."]⟩) ∧
    (entry_attach_photo (some ph) conv3 s = ⟨conv3, s, []⟩) := by
  refine ⟨?_, ?_, ?_⟩
  · rcases h1 with h | h <;> simp [finalize_pet_creation, h]
  · rcases h2 with h | h <;> simp [entry_text_message, h2t, h]
  · simp [entry_attach_photo, h3]

/-- Witness for C5 as amended: concrete bags with missing species,
    missing date and missing entry id respectively. -/
theorem c5_missing_context_witness :
    (finalize_pet_creation true 1000 ⟨some .addPetBreed, { name := some "Rex" }⟩ storeU =
      ⟨Conv.empty, storeU,
       [Reply.message "Не удалось создать питомца. Попробуйте снова через раздел «Питомцы»."]⟩) ∧
    (entry_text_message "боль в лапе" 1000
        ⟨some .addEntryText, { entry_type := some "visit" }⟩ storeU =
      ⟨Conv.empty, storeU,
       [Reply.message "Что-то пошло не так при сохранении записи. Попробуйте ещё раз."]⟩) ∧
    (entry_attach_photo (some ⟨"f-observe", none⟩) ⟨some .attachAdding, {}⟩ storeU =
      ⟨⟨some .attachAdding, {}⟩, storeU, []⟩) := by
  have h := c5_missing_context_handling true 1000
    ⟨some .addPetBreed, { name := some "Rex" }⟩
    ⟨some .addEntryText, { entry_type := some "visit" }⟩
    ⟨some .attachAdding, {}⟩ storeU "боль в лапе" ⟨"f-observe", none⟩
    (Or.inr (by decide)) (by decide) (Or.inr (by decide)) (by decide)
  exact ⟨h.1, h.2.1, h.2.2⟩

/-- C6: an invalid input at a wizard step (empty pet name, species
    outside the enum, non-numeric or non-positive custom delay,
    unparseable date, empty entry text) leaves the conversation state
    tag and data bag unchanged, re-issues the same fixed corrective
    prompt, and retrying with the same invalid input returns the
    identical result. -/
theorem c6_invalid_input_keeps_state_and_reprompts
    (conv1 conv2 conv3 conv4 conv5 : Conv) (s : Store) (tid now : Nat)
    (nameText speciesPayload delayText dateText entryText : String)
    (h1 : pyStrip nameText = "")
    (h2 : partitionColonTail speciesPayload ≠ "cat" ∧
          partitionColonTail speciesPayload ≠ "dog" ∧
          partitionColonTail speciesPayload ≠ "other")
    (h3 : parsePyInt (pyStrip delayText) = none ∨
          ∃ d, parsePyInt (pyStrip delayText) = some d ∧ d ≤ 0)
    (h4 : strptimeYmd (pyStrip dateText) = none)
    (h5 : pyStrip entryText = "") :
    (pets_add_name nameText conv1 =
       (conv1, [Reply.message "Имя не может быть пустым. Попробуйте ещё раз."])) ∧
    (pets_add_species speciesPayload conv2 =
       (conv2, [Reply.callbackAnswer (some "Выберите вид из списка") true])) ∧
    ((vaccine_custom_delay_message delayText tid now conv3 s =
        ⟨conv3, s, [Reply.message "Нужно ввести целое число дней, например 30."]⟩) ∨
     (vaccine_custom_delay_message delayText tid now conv3 s =
        ⟨conv3, s, [Reply.message "Число дней должно быть больше нуля."]⟩)) ∧
    (entry_custom_date_message dateText conv4 =
       (conv4,
        [Reply.message "Не удалось распознать дату. Введите в формате YYYY-MM-DD, например 2025-12-01."])) ∧
    (entry_text_message entryText tid conv5 s =
       ⟨conv5, s, [Reply.message "Текст записи не может быть пустым. Введите описание."]⟩) ∧
    (pets_add_name nameText (pets_add_name nameText conv1).1 =
       pets_add_name nameText conv1) ∧
    (vaccine_custom_delay_message delayText tid now
        (vaccine_custom_delay_message delayText tid now conv3 s).conv
        (vaccine_custom_delay_message delayText tid now conv3 s).store =
      vaccine_custom_delay_message delayText tid now conv3 s) := by
  have p1 : pets_add_name nameText conv1 =
      (conv1, [Reply.message "Имя не может быть пустым. Попробуйте ещё раз."]) := by
    simp [pets_add_name, h1]
  have p3 : (vaccine_custom_delay_message delayText tid now conv3 s =
        ⟨conv3, s, [Reply.message "Нужно ввести целое число дней, например 30."]⟩) ∨
      (vaccine_custom_delay_message delayText tid now conv3 s =
        ⟨conv3, s, [Reply.message "Число дней должно быть больше нуля."]⟩) := by
    rcases h3 with h | ⟨d, hd, hle⟩
    · left
      simp [vaccine_custom_delay_message, h]
    · right
      simp [vaccine_custom_delay_message, hd, hle]
  refine ⟨p1, ?_, p3, ?_, ?_, ?_, ?_⟩
  · simp [pets_add_species, h2.1, h2.2.1, h2.2.2]
  · simp [entry_custom_date_message, h4]
  · simp [entry_text_message, h5]
  · rw [p1]
    exact p1
  · rcases p3 with h | h <;> · rw [h]; exact h

/-- Witness for C6 at concrete invalid inputs. -/
theorem c6_invalid_input_witness :
    (pets_add_name "   " ⟨some .addPetName, {}⟩ =
       (⟨some .addPetName, {}⟩,
        [Reply.message "Имя не может быть пустым. Попробуйте ещё раз."])) ∧
    (pets_add_species "species:fox" ⟨some .addPetSpecies, { name := some "Rex" }⟩ =
       (⟨some .addPetSpecies, { name := some "Rex" }⟩,
        [Reply.callbackAnswer (some "Выберите вид из списка") true])) ∧
    ((vaccine_custom_delay_message "abc" 1000 50 ⟨some .vremCustomDelay, {}⟩ storeU =
        ⟨⟨some .vremCustomDelay, {}⟩, storeU,
         [Reply.message "Нужно ввести целое число дней, например 30."]⟩) ∨
     (vaccine_custom_delay_message "abc" 1000 50 ⟨some .vremCustomDelay, {}⟩ storeU =
        ⟨⟨some .vremCustomDelay, {}⟩, storeU,
         [Reply.message "Число дней должно быть больше нуля."]⟩)) ∧
    (entry_custom_date_message "2024-13-45" ⟨some .addEntryCustomDate, {}⟩ =
       (⟨some .addEntryCustomDate, {}⟩,
        [Reply.message "Не удалось распознать дату. Введите в формате YYYY-MM-DD, например 2025-12-01."])) ∧
    (entry_text_message "" 1000 ⟨some .addEntryText, {}⟩ storeU =
       ⟨⟨some .addEntryText, {}⟩, storeU,
        [Reply.message "Текст записи не может быть пустым. Введите описание."]⟩) ∧
    (pets_add_name "   " (pets_add_name "   " ⟨some .addPetName, {}⟩).1 =
       pets_add_name "   " ⟨some .addPetName, {}⟩) ∧
    (vaccine_custom_delay_message "abc" 1000 50
        (vaccine_custom_delay_message "abc" 1000 50 ⟨some .vremCustomDelay, {}⟩ storeU).conv
        (vaccine_custom_delay_message "abc" 1000 50 ⟨some .vremCustomDelay, {}⟩ storeU).store =
      vaccine_custom_delay_message "abc" 1000 50 ⟨some .vremCustomDelay, {}⟩ storeU) :=
  c6_invalid_input_keeps_state_and_reprompts
    ⟨some .addPetName, {}⟩ ⟨some .addPetSpecies, { name := some "Rex" }⟩
    ⟨some .vremCustomDelay, {}⟩ ⟨some .addEntryCustomDate, {}⟩ ⟨some .addEntryText, {}⟩
    storeU 1000 50 "   " "species:fox" "abc" "2024-13-45" ""
    (by decide) (by decide) (Or.inl (by decide)) (by decide) (by decide)

theorem show_pets_menu_entries (tid : Nat) (s : Store) :
    (show_pets_menu tid s).1.entries = s.entries := by
  have he := ensure_user_entries tid s
  unfold show_pets_menu
  rcases hes : ensure_user tid s with ⟨u, s1⟩
  rw [hes] at he
  simpa using he

/-- C8: for a user whose ensured row has no active pet, the Add-Entry
    wizard is never entered — `start_entry_flow` keeps the conversation
    state, creates no Entry and redirects to pet selection — and the
    final text step also creates no Entry under any input, clearing the
    state and redirecting when it is reached with an otherwise complete
    bag. -/
theorem c8_no_active_pet_never_creates_entry (tid : Nat) (conv : Conv) (s : Store)
    (text : String)
    (h : optNatTruthy (ensure_user tid s).1.active_pet_id = false) :
    ((start_entry_flow tid conv s).conv = conv ∧
     (start_entry_flow tid conv s).store.entries = s.entries ∧
     (start_entry_flow tid conv s).replies.head? =
       some (Reply.message "Сначала выберите активного питомца в разделе «Питомцы».")) ∧
    ((entry_text_message text tid conv s).store.entries = s.entries) ∧
    (pyStrip text ≠ "" →
     optStrTruthy conv.bag.entry_type = true →
     optStrTruthy conv.bag.date = true →
     ∀ day, fromIsoformat (conv.bag.date.getD "") = some day →
       (entry_text_message text tid conv s).conv = Conv.empty ∧
       (entry_text_message text tid conv s).replies =
         [Reply.message "Активный питомец не выбран. Сначала выберите питомца в разделе «Питомцы»."]) := by
  have he := ensure_user_entries tid s
  rcases hes : ensure_user tid s with ⟨u, s1⟩
  rw [hes] at he h
  have he' : s1.entries = s.entries := he
  have h' : optNatTruthy u.active_pet_id = false := h
  rcases hsm : show_pets_menu tid s1 with ⟨s2, menu⟩
  have hs2 : s2.entries = s.entries := by
    have hh := show_pets_menu_entries tid s1
    rw [hsm] at hh
    exact hh.trans he'
  refine ⟨⟨?_, ?_, ?_⟩, ?_, ?_⟩
  · simp [start_entry_flow, hes, h', hsm]
  · simp [start_entry_flow, hes, h', hsm, hs2]
  · simp [start_entry_flow, hes, h', hsm]
  · by_cases h0 : pyStrip text = ""
    · simp [entry_text_message, h0]
    · by_cases ha : optStrTruthy conv.bag.entry_type = false
      · simp [entry_text_message, h0, ha]
      · by_cases hb : optStrTruthy conv.bag.date = false
        · simp [entry_text_message, h0, hb]
        · have ha' : optStrTruthy conv.bag.entry_type = true := by
            simpa using ha
          have hb' : optStrTruthy conv.bag.date = true := by
            simpa using hb
          cases hiso : fromIsoformat (conv.bag.date.getD "") with
          | none => simp [entry_text_message, h0, ha', hb', hiso]
          | some day => simp [entry_text_message, h0, ha', hb', hiso, hes, h', he']
  · intro ht htype hdate day hday
    constructor <;> simp [entry_text_message, ht, htype, hdate, hday, hes, h']

/-- Witness for C8: the fixture user (telegram id 1000) has no pets and
    no active pet; the wizard refuses entry and the text step saves
    nothing even with a complete bag. -/
theorem c8_no_active_pet_witness :
    ((start_entry_flow 1000 ⟨none, {}⟩ storeU).conv = ⟨none, {}⟩ ∧
     (start_entry_flow 1000 ⟨none, {}⟩ storeU).store.entries = storeU.entries ∧
     (start_entry_flow 1000 ⟨none, {}⟩ storeU).replies.head? =
       some (Reply.message "Сначала выберите активного питомца в разделе «Питомцы».")) ∧
    ((entry_text_message "насморк"
        1000 ⟨none, {}⟩ storeU).store.entries = storeU.entries) ∧
    ((entry_text_message "насморк" 1000
        ⟨some .addEntryText,
         { entry_type := some "symptom", date := some "2024-06-01T00:00:00" }⟩
        storeU).conv = Conv.empty ∧
     (entry_text_message "насморк" 1000
        ⟨some .addEntryText,
         { entry_type := some "symptom", date := some "2024-06-01T00:00:00" }⟩
        storeU).replies =
       [Reply.message "Активный питомец не выбран. Сначала выберите питомца в разделе «Питомцы»."]) := by
  have hA := c8_no_active_pet_never_creates_entry 1000 ⟨none, {}⟩ storeU "насморк"
    (by decide)
  have hB := c8_no_active_pet_never_creates_entry 1000
    ⟨some .addEntryText,
     { entry_type := some "symptom", date := some "2024-06-01T00:00:00" }⟩
    storeU "насморк" (by decide)
  exact ⟨hA.1, hA.2.1,
    hB.2.2 (by decide) (by decide) (by decide) (daysFromCivil 2024 6 1) (by decide)⟩

/-- C9: a button payload with the wrong number of colon-separated
    tokens, or a non-numeric token where an id is expected, makes the
    handler answer a non-fatal "invalid data" alert and return — the
    store is untouched (and these handlers take no conversation state
    at all). -/
theorem c9_malformed_payload_graceful (p1 p2 : String) (tid now : Nat) (s : Store)
    (h1 : (splitColon p1).length ≠ 3)
    (h2 : (splitColon p2).length = 3)
    (h2b : parsePyInt ((splitColon p2).getD 2 "") = none) :
    (pet_set_active_callback p1 tid s =
       (s, [Reply.callbackAnswer (some "Некорректные данные") true])) ∧
    (summary_period_callback p1 tid now s =
       (s, [Reply.callbackAnswer (some "Некорректные данные") true])) ∧
    (pet_set_active_callback p2 tid s =
       (s, [Reply.callbackAnswer (some "Не удалось определить питомца") true])) ∧
    (summary_period_callback p2 tid now s =
       (s, [Reply.callbackAnswer (some "Некорректный период") true])) := by
  refine ⟨?_, ?_, ?_, ?_⟩
  · unfold pet_set_active_callback
    rw [if_pos h1]
  · unfold summary_period_callback
    rw [if_pos h1]
  · unfold pet_set_active_callback
    rw [if_neg (by simp [h2]), h2b]
  · unfold summary_period_callback
    rw [if_neg (by simp [h2]), h2b]

/-- Witness for C9: a two-token payload and a non-numeric id. -/
theorem c9_malformed_payload_witness :
    (pet_set_active_callback "pet:set_active" 100 storeTwo =
       (storeTwo, [Reply.callbackAnswer (some "Некорректные данные") true])) ∧
    (summary_period_callback "pet:set_active" 100 777 storeTwo =
       (storeTwo, [Reply.callbackAnswer (some "Некорректные данные") true])) ∧
    (pet_set_active_callback "summary:days:oops" 100 storeTwo =
       (storeTwo, [Reply.callbackAnswer (some "Не удалось определить питомца") true])) ∧
    (summary_period_callback "summary:days:oops" 100 777 storeTwo =
       (storeTwo, [Reply.callbackAnswer (some "Некорректный период") true])) :=
  c9_malformed_payload_graceful "pet:set_active" "summary:days:oops" 100 777 storeTwo
    (by decide) (by decide) (by decide)

end PetBot
